import Mathlib

/-!
Verification of the Anime-Movie-API gateway (Express/axios routers for
movies, anime and TV shows) against its specification.

The handlers are shallowly embedded: each route's payload reshaping is a
pure Lean function over a small JSON value type, translated from the
JavaScript source (`src/unnamed/part_000` holds the movies router and the
anime router; `src/routes/tvShows.js` holds the TV router).  JavaScript
semantics that matter to the claims (truthiness, string coercion of
`null` under `+`, `>` comparison with `ToNumber` coercion) are modelled
explicitly.
-/

/-- JSON values, the shape of upstream payloads and of response bodies.
Objects are association lists of fields; numbers are modelled as integers
(no claim inspects fractional values). -/
inductive Json where
  | null
  | str (s : String)
  | num (n : Int)
  | bool (b : Bool)
  | arr (elems : List Json)
  | obj (fields : List (String × Json))
  deriving Repr

/-- JavaScript truthiness of a property-access result: `none` models
`undefined` (absent property); `null`, `""`, `0` and `false` are falsy. -/
def jsTruthy : Option Json → Bool
  | none => false
  | some .null => false
  | some (.str s) => s ≠ ""
  | some (.num n) => n ≠ 0
  | some (.bool b) => b
  | some (.arr _) => true
  | some (.obj _) => true

mutual
/-- JavaScript string coercion of a value, as performed by `+` when the
other operand is a string. -/
def jsValToString : Json → String
  | .null => "null"
  | .str s => s
  | .num n => toString n
  | .bool b => if b then "true" else "false"
  | .arr xs => String.intercalate "," (jsArrElemStrings xs)
  | .obj _ => "[object Object]"

/-- Element strings for `Array.prototype.join","`: `null` renders empty. -/
def jsArrElemStrings : List Json → List String
  | [] => []
  | .null :: xs => "" :: jsArrElemStrings xs
  | .str s :: xs => s :: jsArrElemStrings xs
  | .num n :: xs => toString n :: jsArrElemStrings xs
  | .bool b :: xs => (if b then "true" else "false") :: jsArrElemStrings xs
  | .arr ys :: xs => String.intercalate "," (jsArrElemStrings ys) :: jsArrElemStrings xs
  | .obj _ :: xs => "[object Object]" :: jsArrElemStrings xs
end

/-- String coercion of a property-access result (`undefined` when absent). -/
def jsLookupToString : Option Json → String
  | none => "undefined"
  | some v => jsValToString v

/-- String coercion of a nullable string field under `+`: JavaScript
renders `null` as the text "null".  (Provider A returns explicit `null`
for missing image paths, so the absent-property case, which would render
"undefined", does not arise for these fields.) -/
def jsStrOfNullable : Option String → String
  | some s => s
  | none => "null"

/-- JavaScript property assignment `obj.k = v` (also the override step of
a spread literal): replaces the binding in place when the key is present,
otherwise appends it. -/
def setKey : List (String × Json) → String → Json → List (String × Json)
  | [], k, v => [(k, v)]
  | (k', v') :: rest, k, v =>
      if k' = k then (k, v) :: rest else (k', v') :: setKey rest k v

/-- JavaScript property read `obj[k]` on an association list of fields:
the first binding for the key, `none` (undefined) when absent. -/
def lookupKey : List (String × Json) → String → Option Json
  | [], _ => none
  | (k', v) :: rest, k => if k' = k then some v else lookupKey rest k

/-- Property access on a JSON value: `none` for non-objects and absent keys. -/
def jsonGet (j : Json) (k : String) : Option Json :=
  match j with
  | .obj fields => lookupKey fields k
  | _ => none

/-! ## Trending movies / trending TV: `time_window` validation

Both handlers (`src/unnamed/part_000` lines 20-49 for movies,
`src/routes/tvShows.js` lines 20-49 for TV) are textually identical up to
the upstream path segment (`movie` vs `tv`), so the route is parameterized
by that segment. -/

/-- Outcome of a handler before any upstream response is consumed: either
exactly one upstream GET to the given URL is issued, or the request is
answered locally with the given status and JSON body. -/
inductive RouteAction where
  | fetch (url : String)
  | respond (status : Nat) (body : Json)
  deriving Repr

/-- Allowed `time_window` values (source: `const allowedValues = ['week', 'day']`). -/
def allowedValues : List String := ["week", "day"]

/-- The trending movies / trending TV route up to the upstream call:
`request.params.time_window || 'week'` (so an absent — or falsy —
parameter defaults to "week"), membership validation against
`allowedValues` with a 400 on failure, otherwise one upstream GET to
`tmdb/trending/<segment>/<time_window>?language=en-US`. -/
def trendingRoute (tmdb segment : String) (timeWindowParam : Option String) : RouteAction :=
  let time_window :=
    match timeWindowParam with
    | none => "week"
    | some s => if s = "" then "week" else s
  if allowedValues.contains time_window then
    .fetch (tmdb ++ "/trending/" ++ segment ++ "/" ++ time_window ++ "?language=en-US")
  else
    .respond 400 (.obj [("error",
      .str ("Invalid time_window value: \"" ++ time_window ++
            "\". Allowed values are: " ++ String.intercalate ", " allowedValues))])

/-! ## Image-path prefixing of whole result items (spread + override)

The map literal
`movie => ({...movie, backdrop_path: movie.backdrop_path ? URLs.image + movie.backdrop_path : null, poster_path: ...})`
appears verbatim in the trending-movies, trending-TV and popular-TV
handlers. -/

/-- The guarded image-path override applied to one field value:
truthy raw value → image base concatenated with its string coercion,
falsy (null / absent / empty) → `null`. -/
def guardedImageField (imageBase : String) (raw : Option Json) : Json :=
  if jsTruthy raw then .str (imageBase ++ jsLookupToString raw) else .null

/-- One result item through the spread literal: every field of the item is
kept, then `backdrop_path` and `poster_path` are overridden with their
guarded prefixed versions (both reads are from the original item). -/
def prefixItemImagePaths (imageBase : String) (item : List (String × Json)) :
    List (String × Json) :=
  let bp := lookupKey item "backdrop_path"
  let pp := lookupKey item "poster_path"
  setKey (setKey item "backdrop_path" (guardedImageField imageBase bp))
    "poster_path" (guardedImageField imageBase pp)

/-- Success body of the trending movies / trending TV handlers: the full
upstream `results` list mapped through the spread literal, no slicing. -/
def trendingResults (imageBase : String) (results : List (List (String × Json))) :
    List (List (String × Json)) :=
  results.map (prefixItemImagePaths imageBase)

/-! ## Movie projections (popular / upcoming / search movies)

Upstream provider-A movie items, typed from the fields the handlers read.
Image paths are nullable strings (provider A sends explicit `null` when a
movie has no backdrop/poster); all other fields pass through opaquely. -/

structure MovieItem where
  id : Json
  original_language : Json
  original_title : Json
  title : Json
  overview : Json
  backdrop_path : Option String
  poster_path : Option String
  release_date : Json
  vote_average : Json
  deriving Repr

/-- A projected movie item as the movie handlers emit it.  The image
fields are `Json` so that "null or prefixed URL" is expressible; the
source builds them with the unguarded concatenation `URLs.image + path`,
which always yields a string. -/
structure ProjectedMovie where
  id : Json
  original_language : Json
  original_title : Json
  title : Json
  overview : Json
  backdrop_path : Json
  poster_path : Json
  release_date : Json
  vote_average : Json
  deriving Repr

/-- Item projection of the popular-movies handler (part_000 lines 61-71):
nine whitelisted fields, unguarded image concatenation. -/
def projectPopularMovie (imageBase : String) (m : MovieItem) : ProjectedMovie :=
  { id := m.id
    original_language := m.original_language
    original_title := m.original_title
    title := m.title
    overview := m.overview
    backdrop_path := .str (imageBase ++ jsStrOfNullable m.backdrop_path)
    poster_path := .str (imageBase ++ jsStrOfNullable m.poster_path)
    release_date := m.release_date
    vote_average := m.vote_average }

/-- Popular-movies result list: `popularData.slice(0, 20).map(...)`. -/
def popularMoviesArray (imageBase : String) (results : List MovieItem) : List ProjectedMovie :=
  (results.take 20).map (projectPopularMovie imageBase)

/-- Item projection of the upcoming-movies handler (part_000 lines 90-100):
same nine fields (title listed after overview in the source literal). -/
def projectUpcomingMovie (imageBase : String) (m : MovieItem) : ProjectedMovie :=
  { id := m.id
    original_language := m.original_language
    original_title := m.original_title
    overview := m.overview
    title := m.title
    backdrop_path := .str (imageBase ++ jsStrOfNullable m.backdrop_path)
    poster_path := .str (imageBase ++ jsStrOfNullable m.poster_path)
    release_date := m.release_date
    vote_average := m.vote_average }

/-- Upcoming-movies result list: `upcomingData.slice(0, 20).map(...)`. -/
def upcomingMoviesArray (imageBase : String) (results : List MovieItem) : List ProjectedMovie :=
  (results.take 20).map (projectUpcomingMovie imageBase)

/-- Item projection of the search-movies handler (part_000 lines 132-142). -/
def projectSearchMovie (imageBase : String) (m : MovieItem) : ProjectedMovie :=
  { id := m.id
    original_language := m.original_language
    original_title := m.original_title
    overview := m.overview
    title := m.title
    backdrop_path := .str (imageBase ++ jsStrOfNullable m.backdrop_path)
    poster_path := .str (imageBase ++ jsStrOfNullable m.poster_path)
    release_date := m.release_date
    vote_average := m.vote_average }

/-- Search-movies result list: `searchMovieData.slice(0, 20).map(...)`. -/
def searchMoviesArray (imageBase : String) (results : List MovieItem) : List ProjectedMovie :=
  (results.take 20).map (projectSearchMovie imageBase)

/-! ## TV search projection (`src/routes/tvShows.js` lines 122-132) -/

structure TvItem where
  id : Json
  original_language : Json
  original_name : Json
  name : Json
  overview : Json
  backdrop_path : Option String
  poster_path : Option String
  first_air_date : Json
  vote_average : Json
  deriving Repr

structure ProjectedTv where
  id : Json
  original_language : Json
  original_name : Json
  overview : Json
  name : Json
  backdrop_path : Json
  poster_path : Json
  first_air_date : Json
  vote_average : Json
  deriving Repr

/-- Item projection of the search-TV handler: nine TV fields, unguarded
image concatenation. -/
def projectSearchTv (imageBase : String) (tv : TvItem) : ProjectedTv :=
  { id := tv.id
    original_language := tv.original_language
    original_name := tv.original_name
    overview := tv.overview
    name := tv.name
    backdrop_path := .str (imageBase ++ jsStrOfNullable tv.backdrop_path)
    poster_path := .str (imageBase ++ jsStrOfNullable tv.poster_path)
    first_air_date := tv.first_air_date
    vote_average := tv.vote_average }

/-- Search-TV result list: `searchTvData.slice(0, 20).map(...)`. -/
def searchTvArray (imageBase : String) (results : List TvItem) : List ProjectedTv :=
  (results.take 20).map (projectSearchTv imageBase)

/-! ## Movie / TV image endpoints

`GET /images/movie/:id` (part_000 lines 154-181) and `GET /images/tv/:id`
(tvShows.js lines 144-172) share the same body shape; only the upstream
URL differs. -/

/-- An upstream backdrop/poster entry, typed from the four fields the
handler reads plus the nullable path it concatenates. -/
structure ImageEntry where
  aspect_ratio : Json
  height : Json
  width : Json
  file_path : Option String
  deriving Repr

/-- Upstream images payload: `backdrops` / `posters` may be absent
(the source guards both with `?.` and `|| []`). -/
structure ImagesPayload where
  backdrops : Option (List ImageEntry)
  posters : Option (List ImageEntry)
  deriving Repr

/-- A trimmed image item as the images handlers emit it. -/
structure TrimmedImage where
  aspect_ratio : Json
  height : Json
  width : Json
  file_path : String
  deriving Repr

/-- Trimming of one entry: four whitelisted fields, unguarded
`URLs.image + file_path` concatenation. -/
def trimImage (imageBase : String) (e : ImageEntry) : TrimmedImage :=
  { aspect_ratio := ImageEntry.aspect_ratio e
    height := e.height
    width := e.width
    file_path := imageBase ++ jsStrOfNullable (ImageEntry.file_path e) }

/-- One sub-list of the images response:
`data.backdrops?.slice(0, 30).map(...) || []`. -/
def imagesListOf (imageBase : String) : Option (List ImageEntry) → List TrimmedImage
  | some entries => (entries.take 30).map (trimImage imageBase)
  | none => []

/-- The images endpoint body `{backdrops: ..., posters: ...}` as the pair
(backdrops, posters). -/
def imagesEndpointBody (imageBase : String) (p : ImagesPayload) :
    List TrimmedImage × List TrimmedImage :=
  (imagesListOf imageBase p.backdrops, imagesListOf imageBase p.posters)

/-! ## Shared error classifier

`handleError` is duplicated verbatim in all three routers (part_000 lines
186-197 and 434-445, tvShows.js lines 177-188). -/

/-- The upstream reply attached to an axios failure, when one arrived. -/
structure UpstreamErrorResponse where
  status : Nat
  data : Json
  deriving Repr

/-- A caught failure as `handleError` inspects it: `err.response` is
present when the upstream replied with an error status, `err.request`
when a request went out, and `err.message` always. -/
structure CaughtError where
  response : Option UpstreamErrorResponse
  request : Option Json
  message : String
  deriving Repr

/-- The shared error classifier: status code and plain-text body sent to
the client.  Branches in source order: `err.response` first, then
`err.request`, then the catch-all. -/
def handleError (err : CaughtError) : Nat × String :=
  match err.response with
  | some r => (r.status, "Error fetching data from API.")
  | none =>
    match err.request with
    | some _ => (500, "No response received from API.")
    | none => (500, "Internal Server Error.")

/-! ## Popular TV (paginated), `src/routes/tvShows.js` lines 54-97 -/

/-- The `page` query value as the handler sees it: the number `1` when the
query parameter is absent (`const { page = 1 } = request.query`), else the
raw query string. -/
inductive PageParam where
  | defaultOne
  | str (s : String)
  deriving Repr

/-- The page value as it is echoed into a JSON body. -/
def pageParamJson : PageParam → Json
  | .defaultOne => .num 1
  | .str s => .str s

/-- A JavaScript number as `ToNumber` produces it from a string: `NaN`,
an infinity, or a finite value.  A finite value is kept as the exact
fraction `num / den` (with `den` a positive power of ten, or one);
see `jsNumGtInt` for the one place the missing IEEE-754 rounding step
could matter. -/
inductive JsNum where
  | nan
  | posInf
  | negInf
  | val (num : Int) (den : Nat)
  deriving Repr, DecidableEq

/-- ECMAScript whitespace and line terminators, trimmed by `ToNumber`:
TAB, LF, VT, FF, CR, SPACE, NBSP, OGHAM SPACE, the U+2000–U+200A spaces,
LS, PS, NARROW NBSP, MMSP, IDEOGRAPHIC SPACE and the BOM. -/
def isJsWhitespace (c : Char) : Bool :=
  (9 ≤ c.toNat && c.toNat ≤ 13) || c.toNat = 32 || c.toNat = 160 || c.toNat = 5760 ||
  (8192 ≤ c.toNat && c.toNat ≤ 8202) || c.toNat = 8232 || c.toNat = 8233 ||
  c.toNat = 8239 || c.toNat = 8287 || c.toNat = 12288 || c.toNat = 65279

/-- Leading and trailing ECMAScript whitespace removed. -/
def trimJsWs (cs : List Char) : List Char :=
  ((cs.dropWhile isJsWhitespace).reverse.dropWhile isJsWhitespace).reverse

/-- Value of a hexadecimal digit character (also serves the smaller
radices, which reject out-of-range digits via `parseRadixAux`). -/
def hexDigitVal (c : Char) : Option Nat :=
  if 48 ≤ c.toNat ∧ c.toNat ≤ 57 then some (c.toNat - 48)
  else if 97 ≤ c.toNat ∧ c.toNat ≤ 102 then some (c.toNat - 87)
  else if 65 ≤ c.toNat ∧ c.toNat ≤ 70 then some (c.toNat - 55)
  else none

/-- Digit accumulation in the given radix; `none` on the first character
that is not a digit of that radix. -/
def parseRadixAux (base : Nat) : List Char → Nat → Option Nat
  | [], acc => some acc
  | c :: cs, acc =>
      match hexDigitVal c with
      | some d => if d < base then parseRadixAux base cs (acc * base + d) else none
      | none => none

/-- A non-empty digit string in the given radix as a number, else `none`. -/
def parseRadix (base : Nat) : List Char → Option Nat
  | [] => none
  | cs => parseRadixAux base cs 0

/-- Decimal-digit accumulation, total (only ever applied to digit spans). -/
def digitsToNatAux : List Char → Nat → Nat
  | [], acc => acc
  | c :: cs, acc => digitsToNatAux cs (acc * 10 + (c.toNat - 48))

/-- Split off the leading run of decimal digits. -/
def spanDigits (cs : List Char) : List Char × List Char :=
  (cs.takeWhile Char.isDigit, cs.dropWhile Char.isDigit)

/-- An exponent part after the `e`/`E` marker: optional sign and at least
one digit. -/
def parseExponent : List Char → Option Int
  | [] => none
  | '+' :: cs => (parseRadix 10 cs).map Int.ofNat
  | '-' :: cs => (parseRadix 10 cs).map (fun n => -(n : Int))
  | cs => (parseRadix 10 cs).map Int.ofNat

/-- Exact value of a decimal literal with integer digits `ip`, fraction
digits `fp` and exponent `e`: the mantissa scaled by `10 ^ (e - |fp|)`,
as an exact fraction. -/
def decValue (ip fp : List Char) (e : Int) : JsNum :=
  let m : Nat := digitsToNatAux (ip ++ fp) 0
  let k : Int := e - (fp.length : Int)
  if 0 ≤ k then .val (Int.ofNat (m * 10 ^ k.toNat)) 1
  else .val (Int.ofNat m) (10 ^ (-k).toNat)

/-- An unsigned StrDecimalLiteral: `Infinity`, or decimal digits with an
optional fraction and an optional exponent, or a fraction-only literal;
anything else is not numeric. -/
def parseUnsignedJs (cs : List Char) : Option JsNum :=
  if cs = "Infinity".data then some .posInf
  else
    let (ip, rest) := spanDigits cs
    match rest with
    | [] => if ip.isEmpty then none else some (.val (Int.ofNat (digitsToNatAux ip 0)) 1)
    | '.' :: rest2 =>
        let (fp, rest3) := spanDigits rest2
        if ip.isEmpty ∧ fp.isEmpty then none
        else
          match rest3 with
          | [] => some (decValue ip fp 0)
          | 'e' :: rest4 => (parseExponent rest4).map (fun e => decValue ip fp e)
          | 'E' :: rest4 => (parseExponent rest4).map (fun e => decValue ip fp e)
          | _ => none
    | 'e' :: rest2 =>
        if ip.isEmpty then none
        else (parseExponent rest2).map (fun e => decValue ip [] e)
    | 'E' :: rest2 =>
        if ip.isEmpty then none
        else (parseExponent rest2).map (fun e => decValue ip [] e)
    | _ => none

/-- Sign applied to a parsed unsigned literal. -/
def negJsNum : JsNum → JsNum
  | .nan => .nan
  | .posInf => .negInf
  | .negInf => .posInf
  | .val num den => .val (-num) den

/-- A non-decimal integer literal (radix 16, 8 or 2) as a `JsNum`. -/
def radixNum (base : Nat) (cs : List Char) : JsNum :=
  ((parseRadix base cs).map (fun n => JsNum.val (Int.ofNat n) 1)).getD .nan

/-- JavaScript `ToNumber` on a string, per the StringNumericLiteral
grammar: whitespace is trimmed, the empty remainder is `0`, an optional
sign may precede a decimal literal or `Infinity`, the `0x`/`0o`/`0b`
prefixes (unsigned only) introduce hex/octal/binary integers, and
anything else is `NaN`. -/
def jsToNumber (s : String) : JsNum :=
  match trimJsWs s.data with
  | [] => .val 0 1
  | '+' :: cs => (parseUnsignedJs cs).getD .nan
  | '-' :: cs =>
      match parseUnsignedJs cs with
      | some x => negJsNum x
      | none => .nan
  | '0' :: 'x' :: cs => radixNum 16 cs
  | '0' :: 'X' :: cs => radixNum 16 cs
  | '0' :: 'o' :: cs => radixNum 8 cs
  | '0' :: 'O' :: cs => radixNum 8 cs
  | '0' :: 'b' :: cs => radixNum 2 cs
  | '0' :: 'B' :: cs => radixNum 2 cs
  | cs => (parseUnsignedJs cs).getD .nan

/-- JavaScript `>` between a `ToNumber` result and an integer: `NaN`
compares false, infinities by sign, finite values by order (the exact
fraction `num / den` exceeds `n` iff `n * den < num`, as `den > 0`).
Finite values are the literal's exact rational; the IEEE-754 rounding
JavaScript applies after parsing is not modelled.  Rounding to double is
monotone and an integer of this magnitude is exactly representable, so
the two semantics agree except for literals lying strictly between the
integer and half an ulp above it (17+ significant digits): there this
model compares true while JavaScript compares false.  In particular
whenever this model's comparison is false, JavaScript's comparison is
false as well. -/
def jsNumGtInt (x : JsNum) (n : Int) : Bool :=
  match x with
  | .nan => false
  | .posInf => true
  | .negInf => false
  | .val num den => decide (n * (den : Int) < num)

/-- The out-of-range test `page > popularData.total_pages`: a JavaScript
`>` between the raw page value and the upstream number.  A string operand
is coerced with `ToNumber`; a `NaN` comparison is false. -/
def pageExceeds (p : PageParam) (total_pages : Int) : Bool :=
  match p with
  | .defaultOne => decide (1 > total_pages)
  | .str s => jsNumGtInt (jsToNumber s) total_pages

/-- Upstream top-rated-TV payload, typed from the fields the handler
reads.  `total_pages` is an integer (it is compared numerically);
`results` items are whole objects (they go through a spread literal). -/
structure TopRatedPayload where
  page : Json
  total_pages : Int
  total_results : Json
  results : List (List (String × Json))
  deriving Repr

/-- The popular-TV handler after the upstream call: status plus JSON
body.  Out-of-range pages get the 404 envelope with `results: []` and an
`items` sub-object; in-range pages get the 200 body with the pagination
envelope and the full image-prefixed list. -/
def popularTvHandler (imageBase : String) (p : PageParam) (u : TopRatedPayload) :
    Nat × Json :=
  if pageExceeds p u.total_pages then
    (404, .obj [
      ("pagination", .obj [
        ("current_page", pageParamJson p),
        ("last_visible_page", .num u.total_pages),
        ("has_next_page", .bool false),
        ("items", .obj [
          ("total_pages", .num u.total_pages),
          ("total_results", u.total_results)])]),
      ("results", .arr []),
      ("message", .str "No results found for the requested page.")])
  else
    (200, .obj [
      ("pagination", .obj [
        ("current_page", u.page),
        ("total_pages", .num u.total_pages),
        ("total_results", u.total_results)]),
      ("popular_tv_shows", .arr ((trendingResults imageBase u.results).map Json.obj))])

/-! ## Anime list projections (trending / popular / upcoming anime)

The item mapping literal is duplicated verbatim in the three handlers
(part_000 lines 225-259, 277-311 and 329-363); only the upstream endpoint
differs, so the projection is defined once.

Note the source reads and writes the misspelled property `backgroud`
(`backgroud: anime.backgroud`); provider B's payloads carry the correctly
spelled `background` and no `backgroud` key, so the read evaluates to
`undefined` on real payloads.  The upstream item type therefore carries
both: `background` (what provider B sends, which the source never reads)
and `backgroud` as an optional property (absent, i.e. `none`, on real
payloads). -/

structure JpgImages where
  image_url : Json
  large_image_url : Json
  deriving Repr

/-- The `trailer.images` sub-object, reached through optional chaining
(`anime.trailer.images?.maximum_image_url`), hence optional. -/
structure TrailerImages where
  maximum_image_url : Json
  deriving Repr

structure Trailer where
  youtube_id : Json
  url : Json
  embed_url : Json
  images : Option TrailerImages
  deriving Repr

/-- An entry of `genres` / `themes` / `demographics` / `explicit_genres`,
reduced to its `name` by the projection. -/
structure NamedEntry where
  name : Json
  deriving Repr

structure AnimeItem where
  mal_id : Json
  url : Json
  images_jpg : JpgImages
  trailer : Trailer
  title : Json
  title_japanese : Json
  title_english : Json
  episodes : Json
  rating : Json
  type : Json
  source : Json
  status : Json
  score : Json
  rank : Json
  popularity : Json
  synopsis : Json
  background : Json
  backgroud : Option Json
  season : Json
  year : Json
  genres : List NamedEntry
  themes : List NamedEntry
  demographics : List NamedEntry
  explicit_genres : List NamedEntry
  deriving Repr

structure AnimeTitlesOut where
  default_title : Json
  japanese_title : Json
  english_title : Json
  deriving Repr

structure AnimeTrailerOut where
  yt_id : Json
  yt_url : Json
  embed_url : Json
  deriving Repr

/-- A projected anime item as the three list handlers emit it.  Optional
fields model properties whose assigned value may be `undefined` (dropped
by JSON serialization): the source writes `backgroud: anime.backgroud`. -/
structure ProjectedAnime where
  mal_id : Json
  mal_url : Json
  images : List Json
  trailer : AnimeTrailerOut
  titles : AnimeTitlesOut
  episodes : Json
  rating : Json
  type : Json
  source : Json
  status : Json
  score : Json
  rank : Json
  popularity : Json
  synopsis : Json
  backgroud : Option Json
  season : Json
  year : Json
  genres : List Json
  themes : List Json
  demographics : List Json
  explicit_genres : List Json
  deriving Repr

/-- The third entry of the `images` array:
`anime.trailer.images?.maximum_image_url || null`. -/
def trailerMaxImage (t : Trailer) : Json :=
  match t.images with
  | some ti =>
    if jsTruthy (some ti.maximum_image_url) then ti.maximum_image_url else .null
  | none => .null

/-- The anime item projection shared by the trending / popular / upcoming
anime handlers, translated field by field from the map literal. -/
def projectAnime (a : AnimeItem) : ProjectedAnime :=
  { mal_id := a.mal_id
    mal_url := a.url
    images := [a.images_jpg.image_url, a.images_jpg.large_image_url, trailerMaxImage a.trailer]
    trailer :=
      { yt_id := a.trailer.youtube_id
        yt_url := a.trailer.url
        embed_url := a.trailer.embed_url }
    titles :=
      { default_title := a.title
        japanese_title := a.title_japanese
        english_title := a.title_english }
    episodes := a.episodes
    rating := a.rating
    type := a.type
    source := a.source
    status := a.status
    score := a.score
    rank := a.rank
    popularity := a.popularity
    synopsis := a.synopsis
    backgroud := a.backgroud
    season := a.season
    year := a.year
    genres := a.genres.map NamedEntry.name
    themes := a.themes.map NamedEntry.name
    demographics := a.demographics.map NamedEntry.name
    explicit_genres := a.explicit_genres.map NamedEntry.name }

/-- Trending-anime result list: `trendingAnimeData.slice(0, 20).map(...)`. -/
def trendingAnimeArray (results : List AnimeItem) : List ProjectedAnime :=
  (results.take 20).map projectAnime

/-- Popular-anime result list: `popularAnimeData.slice(0, 20).map(...)`. -/
def popularAnimeArray (results : List AnimeItem) : List ProjectedAnime :=
  (results.take 20).map projectAnime

/-- Upcoming-anime result list: `upcomingAnimeData.slice(0, 20).map(...)`. -/
def upcomingAnimeArray (results : List AnimeItem) : List ProjectedAnime :=
  (results.take 20).map projectAnime

/-! ## Anime by id (part_000 lines 375-408) -/

/-- One picture entry's format block (`image_url`, `small_image_url`,
`large_image_url`), present under both `jpg` and `webp`. -/
structure PicFormats where
  image_url : Json
  small_image_url : Json
  large_image_url : Json
  deriving Repr

structure PictureEntry where
  jpg : PicFormats
  webp : PicFormats
  deriving Repr

/-- The three upstream URLs the anime-by-id handler requests, in order of
the three sequential awaits: detail, pictures, videos — all for the same
id. -/
def animeByIdUrls (jikan id : String) : List String :=
  [jikan ++ "/anime/" ++ id,
   jikan ++ "/anime/" ++ id ++ "/pictures",
   jikan ++ "/anime/" ++ id ++ "/videos"]

/-- The `jpgs` array of `organizedImages`. -/
def jpgsArray (pics : List PictureEntry) : List Json :=
  pics.map fun pic => .obj [
    ("image_url", pic.jpg.image_url),
    ("small_image_url", pic.jpg.small_image_url),
    ("large_image_url", pic.jpg.large_image_url)]

/-- The `webp` array of `organizedImages`. -/
def webpArray (pics : List PictureEntry) : List Json :=
  pics.map fun pic => .obj [
    ("image_url", pic.webp.image_url),
    ("small_image_url", pic.webp.small_image_url),
    ("large_image_url", pic.webp.large_image_url)]

/-- The organizedImages object: the pictures list reshaped into parallel
`jpgs` and `webp` arrays. -/
def organizedImages (pics : List PictureEntry) : Json :=
  .obj [("jpgs", .arr (jpgsArray pics)), ("webp", .arr (webpArray pics))]

/-- The anime-by-id response body: the detail payload (`searchAnime.data`)
with `images_data` and then `videos` assigned onto it, all other
properties untouched. -/
def animeByIdBody (detail : List (String × Json)) (pics : List PictureEntry)
    (videos : Json) : List (String × Json) :=
  setKey (setKey detail "images_data" (organizedImages pics)) "videos" videos

/-! ## Concrete fixtures used by counterexamples and witnesses -/

/-- A provider-A movie item whose `backdrop_path` is `null` (as provider A
sends for movies without a backdrop) and whose `poster_path` is present. -/
def movieNullBackdrop : MovieItem :=
  { id := .num 27205
    original_language := .str "en"
    original_title := .str "Inception"
    title := .str "Inception"
    overview := .str "A thief enters dreams."
    backdrop_path := none
    poster_path := some "/poster.jpg"
    release_date := .str "2010-07-15"
    vote_average := .num 8 }

/-- A raw trending result item with a `null` backdrop and a present
poster, as it reaches the spread literal. -/
def trendingItemFixture : List (String × Json) :=
  [("id", .num 27205), ("title", .str "Inception"),
   ("backdrop_path", .null), ("poster_path", .str "/poster.jpg"),
   ("vote_average", .num 8)]

/-- An upstream top-rated-TV payload reporting 3 total pages. -/
def topRatedFixture : TopRatedPayload :=
  { page := .num 1
    total_pages := 3
    total_results := .num 60
    results := [trendingItemFixture] }

/-- An upstream images payload with one backdrop entry and no `posters`
array. -/
def imagesFixture : ImagesPayload :=
  { backdrops := some [{ aspect_ratio := .num 2, height := .num 1080,
                         width := .num 1920, file_path := some "/bd.jpg" }]
    posters := none }

/-- One picture entry for the anime-by-id fixtures. -/
def pictureFixture : PictureEntry :=
  { jpg := { image_url := .str "j", small_image_url := .str "js", large_image_url := .str "jl" }
    webp := { image_url := .str "w", small_image_url := .str "ws", large_image_url := .str "wl" } }

/-! # Theorems -/

theorem lookupKey_setKey (l : List (String × Json)) (k k' : String) (v : Json) :
    lookupKey (setKey l k v) k' = if k = k' then some v else lookupKey l k' := by
  induction l with
  | nil =>
      by_cases h : k = k' <;> simp [setKey, lookupKey, h]
  | cons hd tl ih =>
      obtain ⟨k₀, v₀⟩ := hd
      by_cases h0 : k₀ = k
      · subst h0
        by_cases h1 : k₀ = k' <;> simp [setKey, lookupKey, h1]
      · by_cases h1 : k₀ = k'
        · subst h1
          have h0' : ¬ k = k₀ := fun h => h0 h.symm
          simp [setKey, lookupKey, h0, h0', ih]
        · simp [setKey, lookupKey, h0, h1, ih]

/-- C3: the shared error classifier has exactly three mutually exclusive
branches, checked in order — upstream response present → that upstream
status with the fixed body "Error fetching data from API."; otherwise a
sent-but-unanswered request → 500 with a fixed body; otherwise → 500 with
a fixed body — and in every branch the body is a fixed literal
independent of the error's payload contents (two errors with the same
branch shape always get the same body); only the status code is
propagated. -/
theorem c3_error_classifier (err : CaughtError) :
    (∀ r, err.response = some r →
      handleError err = (r.status, "Error fetching data from API.")) ∧
    (err.response = none → ∀ q, err.request = some q →
      handleError err = (500, "No response received from API.")) ∧
    (err.response = none → err.request = none →
      handleError err = (500, "Internal Server Error.")) ∧
    (∀ err' : CaughtError, err.response.isSome = err'.response.isSome →
      err.request.isSome = err'.request.isSome →
      (handleError err).2 = (handleError err').2) := by
  refine ⟨?_, ?_, ?_, ?_⟩
  · intro r hr; simp [handleError, hr]
  · intro hr q hq; simp [handleError, hr, hq]
  · intro hr hq; simp [handleError, hr, hq]
  · intro err' hresp hreq
    cases hr : err.response with
    | some r =>
        cases hr' : err'.response with
        | some r' => simp [handleError, hr, hr']
        | none => rw [hr, hr'] at hresp; simp at hresp
    | none =>
        cases hr' : err'.response with
        | some r' => rw [hr, hr'] at hresp; simp at hresp
        | none =>
            cases hq : err.request with
            | some q =>
                cases hq' : err'.request with
                | some q' => simp [handleError, hr, hr', hq, hq']
                | none => rw [hq, hq'] at hreq; simp at hreq
            | none =>
                cases hq' : err'.request with
                | some q' => rw [hq, hq'] at hreq; simp at hreq
                | none => simp [handleError, hr, hr', hq, hq']

/-- C3 witness: each branch evaluated at a concrete error — an upstream
502 reply propagates the 502 with the generic body, a request without a
reply gives a 500, a local error gives a 500. -/
theorem c3_error_classifier_witness :
    handleError { response := some { status := 502, data := .str "upstream secret detail" },
                  request := some .null, message := "Request failed" } =
      (502, "Error fetching data from API.") ∧
    handleError { response := none, request := some .null, message := "timeout" } =
      (500, "No response received from API.") ∧
    handleError { response := none, request := none, message := "oops" } =
      (500, "Internal Server Error.") := by
  refine ⟨?_, ?_, ?_⟩
  · exact (c3_error_classifier
      { response := some { status := 502, data := .str "upstream secret detail" },
        request := some .null, message := "Request failed" }).1
      { status := 502, data := .str "upstream secret detail" } rfl
  · exact (c3_error_classifier
      { response := none, request := some .null, message := "timeout" }).2.1 rfl .null rfl
  · exact (c3_error_classifier
      { response := none, request := none, message := "oops" }).2.2.1 rfl rfl

/-- C4: every search/popular/upcoming list endpoint with a stated cap C
returns a list of length `min(upstream length, C)`: cap 20 for the
popular/upcoming/search movie lists, the search-TV list and the
trending/popular/upcoming anime lists, cap 30 for the backdrops/posters
image sub-lists. -/
theorem c4_result_list_caps (imageBase : String) (movies : List MovieItem)
    (tvs : List TvItem) (animes : List AnimeItem) (entries : List ImageEntry) :
    (popularMoviesArray imageBase movies).length = min movies.length 20 ∧
    (upcomingMoviesArray imageBase movies).length = min movies.length 20 ∧
    (searchMoviesArray imageBase movies).length = min movies.length 20 ∧
    (searchTvArray imageBase tvs).length = min tvs.length 20 ∧
    (trendingAnimeArray animes).length = min animes.length 20 ∧
    (popularAnimeArray animes).length = min animes.length 20 ∧
    (upcomingAnimeArray animes).length = min animes.length 20 ∧
    (imagesListOf imageBase (some entries)).length = min entries.length 30 := by
  refine ⟨?_, ?_, ?_, ?_, ?_, ?_, ?_, ?_⟩ <;>
    simp [popularMoviesArray, upcomingMoviesArray, searchMoviesArray, searchTvArray,
      trendingAnimeArray, popularAnimeArray, upcomingAnimeArray, imagesListOf] <;>
    omega

/-- C5: for the trending-movies and trending-TV endpoints (both instances
of `trendingRoute`, with segment "movie" resp. "tv"), an absent
`time_window` defaults to "week"; for "week" and "day" exactly one
upstream call is issued to the endpoint parameterized by that value; for
any other value (a present path parameter is a non-empty path segment) no
upstream call is made and the response is a 400 whose body names the
offending value and the allowed set. -/
theorem c5_trending_time_window (tmdb segment : String) (p : Option String) :
    (p = none → trendingRoute tmdb segment p =
      .fetch (tmdb ++ "/trending/" ++ segment ++ "/" ++ "week" ++ "?language=en-US")) ∧
    (p = some "week" → trendingRoute tmdb segment p =
      .fetch (tmdb ++ "/trending/" ++ segment ++ "/" ++ "week" ++ "?language=en-US")) ∧
    (p = some "day" → trendingRoute tmdb segment p =
      .fetch (tmdb ++ "/trending/" ++ segment ++ "/" ++ "day" ++ "?language=en-US")) ∧
    (∀ s, p = some s → s ∉ allowedValues → s ≠ "" →
      trendingRoute tmdb segment p = .respond 400 (.obj [("error",
        .str ("Invalid time_window value: \"" ++ s ++ "\". Allowed values are: " ++
              "week, day"))])) := by
  refine ⟨?_, ?_, ?_, ?_⟩
  · intro h; subst h; rfl
  · intro h; subst h; rfl
  · intro h; subst h; rfl
  · intro s hp hmem hs
    subst hp
    have hw : s ≠ "week" := fun h => hmem (by simp [allowedValues, h])
    have hd : s ≠ "day" := fun h => hmem (by simp [allowedValues, h])
    have hc : allowedValues.contains s = false := by
      simp [allowedValues, hw, hd]
    have hi : String.intercalate ", " allowedValues = "week, day" := by decide
    simp [trendingRoute, hs, hc, hi]
    exact hmem

/-- C5 witness: concrete requests — no parameter fetches the week
endpoint, "day" fetches the day endpoint, "month" is answered locally
with a 400 naming the value and the allowed set. -/
theorem c5_trending_time_window_witness :
    trendingRoute "https://api" "movie" none =
      .fetch ("https://api" ++ "/trending/" ++ "movie" ++ "/" ++ "week" ++ "?language=en-US") ∧
    trendingRoute "https://api" "tv" (some "day") =
      .fetch ("https://api" ++ "/trending/" ++ "tv" ++ "/" ++ "day" ++ "?language=en-US") ∧
    trendingRoute "https://api" "movie" (some "month") =
      .respond 400 (.obj [("error",
        .str ("Invalid time_window value: \"" ++ "month" ++ "\". Allowed values are: " ++
              "week, day"))]) := by
  refine ⟨?_, ?_, ?_⟩
  · exact (c5_trending_time_window "https://api" "movie" none).1 rfl
  · exact (c5_trending_time_window "https://api" "tv" (some "day")).2.2.1 rfl
  · exact (c5_trending_time_window "https://api" "movie" (some "month")).2.2.2 "month" rfl
      (by simp [allowedValues]) (by simp)

/-- C1 counterexample: the popular-movies projection applied to a movie
whose upstream `backdrop_path` is `null` yields a `backdrop_path` that is
neither `null` nor the image base concatenated with a raw path — it is the
malformed string `imageBase ++ "null"` — so the claimed invariant fails on
that endpoint. -/
theorem c1_image_null_counterexample :
    ¬ ((projectPopularMovie "https://image.tmdb.org/t/p/original" movieNullBackdrop).backdrop_path
        = Json.null ∨
      ∃ s, movieNullBackdrop.backdrop_path = some s ∧
        (projectPopularMovie "https://image.tmdb.org/t/p/original" movieNullBackdrop).backdrop_path
          = Json.str ("https://image.tmdb.org/t/p/original" ++ s)) := by
  intro h
  rcases h with h | ⟨s, hs, _⟩
  · exact Json.noConfusion
      (show Json.str ("https://image.tmdb.org/t/p/original" ++ "null") = Json.null from h)
  · exact Option.noConfusion (show (none : Option String) = some s from hs)

/-- C1 amended: the image-path invariant holds only for the endpoints
that use the guarded spread literal (trending movies, trending TV,
popular TV): there a falsy raw path (`null`, absent or empty) maps to
`null` and a non-empty raw path `s` maps to `imageBase ++ s`.  The
popular/upcoming/search movie projections, the search-TV projection and
the image endpoints instead concatenate unconditionally, so a `null` raw
path yields the string `imageBase ++ "null"`, never `null`. -/
theorem c1_image_path_amended (imageBase : String) :
    (∀ item, (lookupKey item "backdrop_path" = none ∨
              lookupKey item "backdrop_path" = some Json.null ∨
              lookupKey item "backdrop_path" = some (Json.str "")) →
      lookupKey (prefixItemImagePaths imageBase item) "backdrop_path" = some Json.null) ∧
    (∀ item s, s ≠ "" → lookupKey item "backdrop_path" = some (Json.str s) →
      lookupKey (prefixItemImagePaths imageBase item) "backdrop_path" =
        some (Json.str (imageBase ++ s))) ∧
    (∀ item, (lookupKey item "poster_path" = none ∨
              lookupKey item "poster_path" = some Json.null ∨
              lookupKey item "poster_path" = some (Json.str "")) →
      lookupKey (prefixItemImagePaths imageBase item) "poster_path" = some Json.null) ∧
    (∀ item s, s ≠ "" → lookupKey item "poster_path" = some (Json.str s) →
      lookupKey (prefixItemImagePaths imageBase item) "poster_path" =
        some (Json.str (imageBase ++ s))) ∧
    (∀ m : MovieItem, m.backdrop_path = none →
      (projectPopularMovie imageBase m).backdrop_path = Json.str (imageBase ++ "null")) ∧
    (∀ m : MovieItem, m.poster_path = none →
      (projectUpcomingMovie imageBase m).poster_path = Json.str (imageBase ++ "null")) ∧
    (∀ m : MovieItem, m.backdrop_path = none →
      (projectSearchMovie imageBase m).backdrop_path = Json.str (imageBase ++ "null")) ∧
    (∀ tv : TvItem, tv.backdrop_path = none →
      (projectSearchTv imageBase tv).backdrop_path = Json.str (imageBase ++ "null")) ∧
    (∀ e : ImageEntry, ImageEntry.file_path e = none →
      (trimImage imageBase e).file_path = imageBase ++ "null") := by
  refine ⟨?_, ?_, ?_, ?_, ?_, ?_, ?_, ?_, ?_⟩
  · intro item h
    rcases h with h | h | h <;>
      simp [prefixItemImagePaths, lookupKey_setKey, guardedImageField, jsTruthy, h]
  · intro item s hs h
    simp [prefixItemImagePaths, lookupKey_setKey, guardedImageField, jsTruthy, h, hs,
      jsLookupToString, jsValToString]
  · intro item h
    rcases h with h | h | h <;>
      simp [prefixItemImagePaths, lookupKey_setKey, guardedImageField, jsTruthy, h]
  · intro item s hs h
    simp [prefixItemImagePaths, lookupKey_setKey, guardedImageField, jsTruthy, h, hs,
      jsLookupToString, jsValToString]
  · intro m h; simp [projectPopularMovie, jsStrOfNullable, h]
  · intro m h; simp [projectUpcomingMovie, jsStrOfNullable, h]
  · intro m h; simp [projectSearchMovie, jsStrOfNullable, h]
  · intro tv h; simp [projectSearchTv, jsStrOfNullable, h]
  · intro e h; simp [trimImage, jsStrOfNullable, h]

/-- C1 amended witness: on a concrete trending item with a `null`
backdrop and the poster "/poster.jpg", the guarded mapping yields `null`
resp. the prefixed URL; on a concrete movie with a `null` backdrop the
popular-movies projection yields the malformed prefixed "null". -/
theorem c1_image_path_amended_witness :
    lookupKey (prefixItemImagePaths "https://img/" trendingItemFixture) "backdrop_path" =
      some Json.null ∧
    lookupKey (prefixItemImagePaths "https://img/" trendingItemFixture) "poster_path" =
      some (Json.str ("https://img/" ++ "/poster.jpg")) ∧
    (projectPopularMovie "https://img/" movieNullBackdrop).backdrop_path =
      Json.str ("https://img/" ++ "null") := by
  obtain ⟨h1, h2, h3, h4, h5, h6, h7, h8, h9⟩ := c1_image_path_amended "https://img/"
  refine ⟨?_, ?_, ?_⟩
  · exact h1 trendingItemFixture (Or.inr (Or.inl rfl))
  · exact h4 trendingItemFixture "/poster.jpg" (by simp) rfl
  · exact h5 movieNullBackdrop rfl

/-- C7: the anime-by-id endpoint issues three sequential upstream calls
for the same id (the list `animeByIdUrls` models them in await order:
detail, pictures, videos), reshapes the pictures list into parallel
`jpgs`/`webp` arrays each as long as the source pictures list, attaches
`images_data` and `videos` onto the detail payload, and leaves every
other detail property unmodified. -/
theorem c7_anime_by_id (jikan id : String) (detail : List (String × Json))
    (pics : List PictureEntry) (videos : Json) :
    animeByIdUrls jikan id =
      [jikan ++ "/anime/" ++ id,
       jikan ++ "/anime/" ++ id ++ "/pictures",
       jikan ++ "/anime/" ++ id ++ "/videos"] ∧
    (jpgsArray pics).length = pics.length ∧
    (webpArray pics).length = pics.length ∧
    lookupKey (animeByIdBody detail pics videos) "images_data" =
      some (organizedImages pics) ∧
    lookupKey (animeByIdBody detail pics videos) "videos" = some videos ∧
    (∀ k, k ≠ "images_data" → k ≠ "videos" →
      lookupKey (animeByIdBody detail pics videos) k = lookupKey detail k) := by
  refine ⟨rfl, ?_, ?_, ?_, ?_, ?_⟩
  · simp [jpgsArray]
  · simp [webpArray]
  · simp [animeByIdBody, lookupKey_setKey]
  · simp [animeByIdBody, lookupKey_setKey]
  · intro k h1 h2
    simp only [animeByIdBody]
    rw [lookupKey_setKey, if_neg (fun h => h2 h.symm),
      lookupKey_setKey, if_neg (fun h => h1 h.symm)]

/-- C7 witness: a concrete detail payload with one picture — the parallel
arrays have length 1, both attachments land, and the untouched detail
property `title` is preserved. -/
theorem c7_anime_by_id_witness :
    (jpgsArray [pictureFixture]).length = 1 ∧
    lookupKey (animeByIdBody [("title", .str "Naruto")] [pictureFixture] (.arr []))
      "images_data" = some (organizedImages [pictureFixture]) ∧
    lookupKey (animeByIdBody [("title", .str "Naruto")] [pictureFixture] (.arr []))
      "videos" = some (.arr []) ∧
    lookupKey (animeByIdBody [("title", .str "Naruto")] [pictureFixture] (.arr []))
      "title" = some (.str "Naruto") := by
  obtain ⟨-, h2, -, h4, h5, h6⟩ :=
    c7_anime_by_id "https://api.jikan.moe/v4" "20" [("title", .str "Naruto")]
      [pictureFixture] (.arr [])
  exact ⟨h2, h4, h5, h6 "title" (by simp) (by simp)⟩

/-- C8: for the trending-movies and trending-TV success path, the
returned list has one item per upstream result (no truncation) and is the
positional image-prefixing of the upstream list, and on each item every
property other than `backdrop_path` and `poster_path` is passed through
unchanged. -/
theorem c8_trending_passthrough (imageBase : String)
    (results : List (List (String × Json))) :
    (trendingResults imageBase results).length = results.length ∧
    (∀ i : Nat, (trendingResults imageBase results)[i]? =
      (results[i]?).map (prefixItemImagePaths imageBase)) ∧
    (∀ item k, k ≠ "backdrop_path" → k ≠ "poster_path" →
      lookupKey (prefixItemImagePaths imageBase item) k = lookupKey item k) := by
  refine ⟨?_, ?_, ?_⟩
  · simp [trendingResults]
  · intro i; simp [trendingResults]
  · intro item k h1 h2
    simp only [prefixItemImagePaths]
    rw [lookupKey_setKey, if_neg (fun h => h2 h.symm),
      lookupKey_setKey, if_neg (fun h => h1 h.symm)]

/-- C8 witness: on a one-item upstream list the output has one item, and
the untouched properties `id` and `title` of the fixture item survive the
spread unchanged. -/
theorem c8_trending_passthrough_witness :
    (trendingResults "https://img/" [trendingItemFixture]).length = 1 ∧
    lookupKey (prefixItemImagePaths "https://img/" trendingItemFixture) "id" =
      some (.num 27205) ∧
    lookupKey (prefixItemImagePaths "https://img/" trendingItemFixture) "title" =
      some (.str "Inception") := by
  obtain ⟨h1, -, h3⟩ := c8_trending_passthrough "https://img/" [trendingItemFixture]
  exact ⟨h1, by rw [h3 trendingItemFixture "id" (by simp) (by simp)]; rfl,
    by rw [h3 trendingItemFixture "title" (by simp) (by simp)]; rfl⟩

/-- C9: the movie-images and TV-images endpoints always answer with a
`backdrops`/`posters` pair in which each list has at most 30 items, every
item is the four-field trim of some upstream entry, a missing upstream
array yields the empty list (never null/undefined, by the return type),
and a present upstream array yields its first 30 entries trimmed. -/
theorem c9_images_endpoint (imageBase : String) (p : ImagesPayload) :
    (imagesEndpointBody imageBase p).1.length ≤ 30 ∧
    (imagesEndpointBody imageBase p).2.length ≤ 30 ∧
    (p.backdrops = none → (imagesEndpointBody imageBase p).1 = []) ∧
    (p.posters = none → (imagesEndpointBody imageBase p).2 = []) ∧
    (∀ l, p.backdrops = some l →
      (imagesEndpointBody imageBase p).1 = (l.take 30).map (trimImage imageBase)) ∧
    (∀ l, p.posters = some l →
      (imagesEndpointBody imageBase p).2 = (l.take 30).map (trimImage imageBase)) ∧
    (∀ t ∈ (imagesEndpointBody imageBase p).1, ∃ e, t = trimImage imageBase e) ∧
    (∀ t ∈ (imagesEndpointBody imageBase p).2, ∃ e, t = trimImage imageBase e) := by
  have hlen : ∀ o : Option (List ImageEntry), (imagesListOf imageBase o).length ≤ 30 := by
    intro o
    cases o with
    | none => simp [imagesListOf]
    | some l =>
        simp only [imagesListOf, List.length_map, List.length_take]
        omega
  have hmem : ∀ (o : Option (List ImageEntry)),
      ∀ t ∈ imagesListOf imageBase o, ∃ e, t = trimImage imageBase e := by
    intro o t ht
    cases o with
    | none => simp [imagesListOf] at ht
    | some l =>
        simp only [imagesListOf, List.mem_map] at ht
        obtain ⟨e, -, he⟩ := ht
        exact ⟨e, he.symm⟩
  refine ⟨hlen p.backdrops, hlen p.posters, ?_, ?_, ?_, ?_,
    hmem p.backdrops, hmem p.posters⟩
  · intro h; simp [imagesEndpointBody, h, imagesListOf]
  · intro h; simp [imagesEndpointBody, h, imagesListOf]
  · intro l h; simp [imagesEndpointBody, h, imagesListOf]
  · intro l h; simp [imagesEndpointBody, h, imagesListOf]

/-- C9 witness: on a payload with one backdrop entry and no `posters`
array the body is the trimmed singleton next to the empty list. -/
theorem c9_images_endpoint_witness :
    (imagesEndpointBody "https://img/" imagesFixture).1 =
      [{ aspect_ratio := .num 2, height := .num 1080, width := .num 1920,
         file_path := "https://img/" ++ "/bd.jpg" }] ∧
    (imagesEndpointBody "https://img/" imagesFixture).2 = [] := by
  obtain ⟨-, -, -, h4, h5, -, -, -⟩ := c9_images_endpoint "https://img/" imagesFixture
  refine ⟨?_, h4 rfl⟩
  rw [h5 _ rfl]
  rfl

/-- C6: the anime list projections do not expose a `background` field at
all — the source reads and writes the misspelled `backgroud`, so the
output's `backgroud` value equals the upstream `backgroud` property
(absent, hence `undefined`, on provider B's real payloads) no matter what
the upstream `background` holds: the upstream `background` text never
reaches the response. -/
theorem c6_background_never_propagated (a : AnimeItem) (t : Json) :
    (projectAnime { a with background := t }).backgroud = a.backgroud ∧
    (a.backgroud = none → (projectAnime { a with background := t }).backgroud = none) := by
  constructor
  · simp [projectAnime]
  · intro h; simp [projectAnime, h]

/-- C6 witness: a concrete anime item carrying the upstream text
"Based on the manga." under `background` and, as in every real provider-B
payload, no `backgroud` property: the projected item's `backgroud` is
`undefined` (dropped at serialization), so the text is lost. -/
theorem c6_background_never_propagated_witness :
    (projectAnime
      { mal_id := .num 20, url := .str "https://myanimelist.net/anime/20",
        images_jpg := { image_url := .str "j", large_image_url := .str "jl" },
        trailer := { youtube_id := .null, url := .null, embed_url := .null, images := none },
        title := .str "Naruto", title_japanese := .null, title_english := .null,
        episodes := .num 220, rating := .str "PG-13", type := .str "TV",
        source := .str "Manga", status := .str "Finished Airing", score := .num 8,
        rank := .num 600, popularity := .num 8, synopsis := .str "A ninja.",
        background := .str "Based on the manga.", backgroud := none,
        season := .str "fall", year := .num 2002,
        genres := [], themes := [], demographics := [], explicit_genres := [] }).backgroud
      = none := by
  exact (c6_background_never_propagated
    { mal_id := .num 20, url := .str "https://myanimelist.net/anime/20",
      images_jpg := { image_url := .str "j", large_image_url := .str "jl" },
      trailer := { youtube_id := .null, url := .null, embed_url := .null, images := none },
      title := .str "Naruto", title_japanese := .null, title_english := .null,
      episodes := .num 220, rating := .str "PG-13", type := .str "TV",
      source := .str "Manga", status := .str "Finished Airing", score := .num 8,
      rank := .num 600, popularity := .num 8, synopsis := .str "A ninja.",
      background := .str "Based on the manga.", backgroud := none,
      season := .str "fall", year := .num 2002,
      genres := [], themes := [], demographics := [], explicit_genres := [] }
    (.str "Based on the manga.")).2 rfl

/-- C2 counterexample: requesting page "5" against an upstream payload
reporting 3 total pages does give a 404 with empty `results`, but the
`items` member of the pagination envelope is the sub-object carrying
`total_pages`/`total_results`, not an empty list — refuting the claimed
"empty items list". -/
theorem c2_pagination_counterexample :
    (popularTvHandler "https://img/" (.str "5") topRatedFixture).1 = 404 ∧
    jsonGet (popularTvHandler "https://img/" (.str "5") topRatedFixture).2 "results" =
      some (Json.arr []) ∧
    ((jsonGet (popularTvHandler "https://img/" (.str "5") topRatedFixture).2 "pagination").bind
        (fun pg => jsonGet pg "items")) ≠ some (Json.arr []) := by
  refine ⟨rfl, rfl, ?_⟩
  intro h
  have h' := Option.some.inj h
  exact Json.noConfusion h'

/-- C2 amended: for the popular-TV endpoint, whenever the requested page
exceeds the upstream `total_pages` (under the JavaScript `>` comparison
of the raw page value), the response is a 404 whose body has an empty
`results` list and a pagination envelope whose `items` sub-object (not an
empty list) carries the upstream `total_pages` and `total_results`;
otherwise the response is a 200 with body
`pagination: (current_page, total_pages, total_results)` plus the
image-prefixed `popular_tv_shows` list. -/
theorem c2_popular_tv_pagination_amended (imageBase : String) (p : PageParam)
    (u : TopRatedPayload) :
    (pageExceeds p u.total_pages = true →
      (popularTvHandler imageBase p u).1 = 404 ∧
      jsonGet (popularTvHandler imageBase p u).2 "results" = some (Json.arr []) ∧
      ((jsonGet (popularTvHandler imageBase p u).2 "pagination").bind
          (fun pg => jsonGet pg "items")) =
        some (Json.obj [("total_pages", Json.num u.total_pages),
                        ("total_results", u.total_results)])) ∧
    (pageExceeds p u.total_pages = false →
      popularTvHandler imageBase p u =
        (200, Json.obj [
          ("pagination", Json.obj [
            ("current_page", u.page),
            ("total_pages", Json.num u.total_pages),
            ("total_results", u.total_results)]),
          ("popular_tv_shows", Json.arr ((trendingResults imageBase u.results).map Json.obj))])) := by
  constructor
  · intro h
    simp only [popularTvHandler, h, if_true]
    refine ⟨?_, ?_, ?_⟩ <;> trivial
  · intro h
    simp only [popularTvHandler, h, Bool.false_eq_true, if_false]

/-- C2 amended witness: page "5" of a 3-page upstream payload gets the
404 envelope; the default page (absent parameter) gets the 200 body. -/
theorem c2_popular_tv_pagination_amended_witness :
    (popularTvHandler "https://img/" (.str "5") topRatedFixture).1 = 404 ∧
    jsonGet (popularTvHandler "https://img/" (.str "5") topRatedFixture).2 "results" =
      some (Json.arr []) ∧
    popularTvHandler "https://img/" .defaultOne topRatedFixture =
      (200, Json.obj [
        ("pagination", Json.obj [
          ("current_page", Json.num 1),
          ("total_pages", Json.num 3),
          ("total_results", Json.num 60)]),
        ("popular_tv_shows",
          Json.arr ((trendingResults "https://img/" [trendingItemFixture]).map Json.obj))]) := by
  obtain ⟨h404, -⟩ :=
    c2_popular_tv_pagination_amended "https://img/" (.str "5") topRatedFixture
  obtain ⟨-, h200⟩ :=
    c2_popular_tv_pagination_amended "https://img/" .defaultOne topRatedFixture
  obtain ⟨ha, hb, -⟩ := h404 rfl
  exact ⟨ha, hb, h200 rfl⟩

/-- C10: the popular-TV out-of-range check compares the raw
caller-supplied page value with the upstream `total_pages` via the
JavaScript `>`; any page whose comparison is false — in particular every
non-numeric string, whose `ToNumber` is NaN — skips the 404 branch and
reaches the 200 success response, and when the 404 branch is taken its
`current_page` echoes the raw caller-supplied page value (a string, not
the upstream page number). -/
theorem c10_popular_tv_raw_page (imageBase : String) (p : PageParam)
    (u : TopRatedPayload) :
    (∀ s, p = PageParam.str s → jsToNumber s = JsNum.nan →
      pageExceeds p u.total_pages = false) ∧
    (pageExceeds p u.total_pages = false →
      (popularTvHandler imageBase p u).1 = 200) ∧
    (pageExceeds p u.total_pages = true →
      (popularTvHandler imageBase p u).1 = 404 ∧
      ((jsonGet (popularTvHandler imageBase p u).2 "pagination").bind
          (fun pg => jsonGet pg "current_page")) = some (pageParamJson p)) := by
  refine ⟨?_, ?_, ?_⟩
  · intro s hp hnan
    subst hp
    simp [pageExceeds, hnan, jsNumGtInt]
  · intro h
    simp only [popularTvHandler, h, Bool.false_eq_true, if_false]
  · intro h
    simp only [popularTvHandler, h, if_true]
    refine ⟨?_, ?_⟩ <;> trivial

/-- C10 witness: the non-numeric page "abc" fails the comparison against
3 total pages and reaches the 200 branch; page "5" takes the 404 branch
and its `current_page` echoes the raw string "5"; the JavaScript-numeric
page "5.5" coerces to 11/2 and also takes the 404 branch. -/
theorem c10_popular_tv_raw_page_witness :
    pageExceeds (.str "abc") topRatedFixture.total_pages = false ∧
    (popularTvHandler "https://img/" (.str "abc") topRatedFixture).1 = 200 ∧
    ((jsonGet (popularTvHandler "https://img/" (.str "5") topRatedFixture).2 "pagination").bind
        (fun pg => jsonGet pg "current_page")) = some (Json.str "5") ∧
    (popularTvHandler "https://img/" (.str "5.5") topRatedFixture).1 = 404 := by
  obtain ⟨hnan, h200, -⟩ :=
    c10_popular_tv_raw_page "https://img/" (.str "abc") topRatedFixture
  obtain ⟨-, -, h404⟩ :=
    c10_popular_tv_raw_page "https://img/" (.str "5") topRatedFixture
  obtain ⟨-, -, hdec⟩ :=
    c10_popular_tv_raw_page "https://img/" (.str "5.5") topRatedFixture
  have hfalse := hnan "abc" rfl rfl
  exact ⟨hfalse, h200 hfalse, (h404 rfl).2, (hdec rfl).1⟩
